import Mathlib

/-!
Shallow embedding of `src/Firmware/IotaWatt/RTC.cpp` (IoTaWatt RTC driver and
DateTime value type).  Machine integers are modelled as `Nat` with explicit
`% 2^8`, `% 2^16`, `% 2^32` wherever the C code can overflow or truncate.
The `PROGMEM` table `daysInMonth` has 11 entries; reads past its end are
undefined behaviour in C, so such reads are modelled by an explicit `junk`
byte oracle threaded through the definitions that can perform them.
-/

/-- Offset between the 1970 and 2000 epochs, in seconds (from `RTC.h`;
the value is stated in the source comments and in the spec). -/
def SECONDS_FROM_1970_TO_2000 : Nat := 946684800

/-- `daysInMonth[]`: days of January .. November (December omitted), RTC.cpp:12. -/
def daysInMonthTable : List Nat := [31, 28, 31, 30, 31, 30, 31, 31, 30, 31, 30]

/-- `pgm_read_byte(daysInMonth + i)`: in-range reads return the table entry,
out-of-range reads (undefined behaviour in C) return an arbitrary junk byte. -/
def pgmDaysInMonth (junk : Nat → Nat) (i : Nat) : Nat :=
  daysInMonthTable.getD i (junk i % 256)

/-- Sum of the first `k` `daysInMonth` bytes: the loop
`for (i = 1; i < m; ++i) days += pgm_read_byte(daysInMonth + i - 1)`
in `date2days` accumulates `monthAccum junk (m - 1)`. -/
def monthAccum (junk : Nat → Nat) : Nat → Nat
  | 0 => 0
  | k + 1 => monthAccum junk k + pgmDaysInMonth junk k

/-- `date2days` (RTC.cpp:25): days since 2000-01-01 for a date, computed in
`uint16_t` (the final expression is truncated mod 2^16, and the trailing `- 1`
can wrap, hence the `+ 65535`). -/
def date2days (junk : Nat → Nat) (y m d : Nat) : Nat :=
  let y' := if 2000 ≤ y then y - 2000 else y
  let days := d + monthAccum junk (m - 1)
  let days := if 2 < m ∧ y' % 4 = 0 then days + 1 else days
  (days + 365 * y' + (y' + 3) / 4 + 65535) % 65536

/-- `time2ulong` (RTC.cpp:47): total seconds from days/h/m/s in `uint32_t`. -/
def time2ulong (days h m s : Nat) : Nat :=
  (((days * 24 + h) * 60 + m) * 60 + s) % 4294967296

/-- The `DateTime` value type: fields `yOff m d hh mm ss` are `uint8_t`
in the source; they are modelled as `Nat` and every constructor stores
them reduced mod 256. -/
structure DateTime where
  yOff : Nat
  m : Nat
  d : Nat
  hh : Nat
  mm : Nat
  ss : Nat
deriving DecidableEq, Repr

/-- `DateTime::year()` accessor: `2000U + yOff` (cf. RTC.cpp:509). -/
def DateTime.year (dt : DateTime) : Nat := 2000 + dt.yOff

/-- The field constructor `DateTime(uint16_t year, uint8_t month, ...)`
(RTC.cpp:114): years ≥ 2000 are reduced to an offset; all fields are
stored in `uint8_t` (mod 256). -/
def DateTime.mkFields (year month day hour minute sec : Nat) : DateTime :=
  let y := if 2000 ≤ year then year - 2000 else year
  ⟨y % 256, month % 256, day % 256, hour % 256, minute % 256, sec % 256⟩

/-- `DateTime::unixtime()` (RTC.cpp:434). -/
def DateTime.unixtime (junk : Nat → Nat) (dt : DateTime) : Nat :=
  (time2ulong (date2days junk dt.yOff dt.m dt.d) dt.hh dt.mm dt.ss
    + SECONDS_FROM_1970_TO_2000) % 4294967296

/-- The year loop of `DateTime::DateTime(uint32_t)` (RTC.cpp:83):
strip whole years (365 days, +1 in mod-4 leap years) from a day count.
The C loop is unbounded (`for (yOff = 0;;++yOff)`); each pass removes at
least 365 days, so `days + 1` fuel is always sufficient, and since the day
count is at most 49710 the `uint8_t` counter `yOff` never wraps. -/
def yearLoop : Nat → Nat → Nat → Nat × Nat
  | 0, days, yOff => (yOff, days)
  | fuel + 1, days, yOff =>
    let leap := if yOff % 4 = 0 then 1 else 0
    if days < 365 + leap then (yOff, days)
    else yearLoop fuel (days - (365 + leap)) (yOff + 1)

/-- The month loop of `DateTime::DateTime(uint32_t)` (RTC.cpp:89):
`for (m = 1; m < 12; ++m)`, subtracting month lengths (February gets +1 in a
leap year) until the remaining days fit; only table indices 0..10 are read,
always in range.  Fuel 12 covers all iterations of the bounded C loop. -/
def ctorMonthLoop (leap : Nat) : Nat → Nat → Nat → Nat × Nat
  | 0, m, days => (m, days)
  | fuel + 1, m, days =>
    if m < 12 then
      let dpm := daysInMonthTable.getD (m - 1) 0 + (if leap = 1 ∧ m = 2 then 1 else 0)
      if days < dpm then (m, days)
      else ctorMonthLoop leap fuel (m + 1) (days - dpm)
    else (m, days)

/-- `DateTime::DateTime(uint32_t t)` (RTC.cpp:73): the epoch-seconds
constructor.  `t -= SECONDS_FROM_1970_TO_2000` is `uint32_t` arithmetic and
may wrap. -/
def DateTime.fromUnix (t : Nat) : DateTime :=
  let t1 := (t % 4294967296 + (4294967296 - SECONDS_FROM_1970_TO_2000)) % 4294967296
  let ss := t1 % 60
  let t2 := t1 / 60
  let mm := t2 % 60
  let t3 := t2 / 60
  let hh := t3 % 24
  let days := t3 / 24
  let yd := yearLoop (days + 1) days 0
  let leap := if yd.1 % 4 = 0 then 1 else 0
  let md := ctorMonthLoop leap 12 1 yd.2
  ⟨yd.1, md.1, md.2 + 1, hh, mm, ss⟩

/-- `DateTime::isValid()` (RTC.cpp:267). -/
def DateTime.isValid (junk : Nat → Nat) (dt : DateTime) : Bool :=
  if 100 ≤ dt.yOff then false
  else
    let other := DateTime.fromUnix (dt.unixtime junk)
    dt.yOff == other.yOff && dt.m == other.m && dt.d == other.d
      && dt.hh == other.hh && dt.mm == other.mm && dt.ss == other.ss

/-- `bcd2bin` (RTC.cpp:632): `val - 6 * (val >> 4)`; never negative for a
byte argument, so plain `Nat` subtraction is exact. -/
def bcd2bin (v : Nat) : Nat := v - 6 * (v / 16)

/-- `bin2bcd` (RTC.cpp:641): `val + 6 * (val / 10)` truncated to `uint8_t`. -/
def bin2bcd (v : Nat) : Nat := (v + 6 * (v / 10)) % 256

/-! ### Spec-side calendar vocabulary

These definitions express the *quantification domain* of the claims
("valid field tuple") and the abstract day-count sums used to reason about
the source's loops. -/

/-- 1 if year-offset `y` is a leap year by the source's mod-4 rule, else 0. -/
def leapOf (y : Nat) : Nat := if y % 4 = 0 then 1 else 0

/-- Length of month `m` (1-based) given a leap flag; December (index 11,
past the 11-entry table) has 31 days. -/
def monthLen (leap m : Nat) : Nat :=
  daysInMonthTable.getD (m - 1) 31 + (if leap = 1 ∧ m = 2 then 1 else 0)

/-- A valid calendar field tuple in the sense of the spec: year 2000..2099,
month 1..12, day valid for that month and leap year, hour 0..23,
minute/second 0..59. -/
def ValidTuple (dt : DateTime) : Prop :=
  dt.yOff ≤ 99 ∧ 1 ≤ dt.m ∧ dt.m ≤ 12 ∧ 1 ≤ dt.d ∧
    dt.d ≤ monthLen (leapOf dt.yOff) dt.m ∧ dt.hh ≤ 23 ∧ dt.mm ≤ 59 ∧ dt.ss ≤ 59

instance (dt : DateTime) : Decidable (ValidTuple dt) := by
  unfold ValidTuple; infer_instance

/-- Length in days of year-offset `y`. -/
def yearLenAbs (y : Nat) : Nat := 365 + leapOf y

/-- Total days of `n` consecutive years starting at year-offset `y0`. -/
def yearSumFrom : Nat → Nat → Nat
  | _, 0 => 0
  | y0, n + 1 => yearLenAbs y0 + yearSumFrom (y0 + 1) n

/-- Total days of the months strictly before month `m` (1-based). -/
def monthSumTo (leap : Nat) : Nat → Nat
  | 0 => 0
  | 1 => 0
  | m + 2 => monthSumTo leap (m + 1) + monthLen leap (m + 1)

/-- Day index (days since 2000-01-01) of a field tuple, in unwrapped form. -/
def dateDaysIdx (y m d : Nat) : Nat :=
  yearSumFrom 0 y + monthSumTo (leapOf y) m + (d - 1)

/-- `conv2d` (RTC.cpp:143): two-digit decimal from bytes `p[off]`, `p[off+1]`
('0' = 48); non-digit characters contribute nothing. -/
def conv2d (p : Nat → Nat) (off : Nat) : Nat :=
  let v := if 48 ≤ p off ∧ p off ≤ 57 then p off - 48 else 0
  if 48 ≤ p (off + 1) ∧ p (off + 1) ≤ 57 then 10 * v + (p (off + 1) - 48) else v

/-- The template `"2000-01-01T00:00:00"` of the ISO-8601 constructor
(RTC.cpp:251), as bytes. -/
def isoTemplateBytes : List Nat :=
  ['2', '0', '0', '0', '-', '0', '1', '-', '0', '1', 'T',
   '0', '0', ':', '0', '0', ':', '0', '0'].map Char.toNat

/-- `DateTime::DateTime(const char *iso8601dateTime)` (RTC.cpp:250): the
input C string is modelled as its byte list (no embedded NUL, so
`strlen(input) = s.length` and `strlen(ref) = 19`);
`memcpy(ref, input, min(19, strlen(input)))` overlays the leading bytes onto
the template: `isoRef s` is the overlaid buffer. -/
def isoRef (s : List Nat) (j : Nat) : Nat :=
  if j < min 19 s.length then s.getD j 0 else isoTemplateBytes.getD j 0

/-- The six fixed-offset field parses of the ISO-8601 constructor. -/
def DateTime.fromISO8601 (s : List Nat) : DateTime :=
  ⟨conv2d (isoRef s) 2 % 256, conv2d (isoRef s) 5 % 256, conv2d (isoRef s) 8 % 256,
   conv2d (isoRef s) 11 % 256, conv2d (isoRef s) 14 % 256, conv2d (isoRef s) 17 % 256⟩

/-! ### The RTC driver

The two-wire bus (`TwoWire`) is an external collaborator: the driver only
uses the five primitives of spec §6.  The driver functions below are direct
transcriptions of RTC.cpp over an abstract bus implementation. -/

/-- Modelled from the spec: the consumed bus-transport capability of §6
(`TwoWire` is not part of the sources): begin-transaction(address),
write(byte), end-transaction() → status, request-read(address, length),
read() → byte, over an abstract bus state `σ`. -/
structure Wire (σ : Type) where
  beginTransmission : σ → Nat → σ
  write : σ → Nat → σ
  endTransmission : σ → σ × Nat
  requestFrom : σ → Nat → Nat → σ
  read : σ → σ × Nat

/-- The chip-model tag (`unknown | PCF8523 | M41T81`). -/
inductive RTCModel
  | unknown
  | PCF8523
  | M41T81
deriving DecidableEq, Repr

/-- Driver instance state: detected model and resolved bus address. -/
structure RTCState where
  _model : RTCModel
  _RTCaddr : Nat
deriving DecidableEq, Repr

/-- Modelled from the spec: device addresses from the missing header `RTC.h`.
`PCF8523_ADDR = 0x68` is stated in the RTC.cpp:691 comment; `M41T81_ADDR`
is the data-sheet address 0xD0 mentioned there.  No claim proof depends on
the numeric values. -/
def M41T81_ADDR : Nat := 0xD0

/-- Modelled from the spec: see `M41T81_ADDR`. -/
def PCF8523_ADDR : Nat := 0x68

/-- Modelled from the spec: `PCF8523_CONTROL_3` from the missing header
`RTC.h` is the PCF8523 Control_3 register, 0x02 — forced by the layout of
`RTC::adjust` (seconds written directly after it land at 0x03, where
`RTC::now` reads them). -/
def PCF8523_CONTROL_3 : Nat := 0x02

/-- `RTC::readBytes` (RTC.cpp:652); the header declares a default
`len = 1`, used by the single-register reads below. -/
def RTC.readBytes {σ : Type} (W : Wire σ) (r : RTCState) (s : σ)
    (memoryAddress len : Nat) : σ :=
  let s := W.beginTransmission s r._RTCaddr
  let s := W.write s memoryAddress
  let s := (W.endTransmission s).1
  W.requestFrom s r._RTCaddr len

/-- `RTC::begin` (RTC.cpp:675): probe M41T81's address, then PCF8523's,
disambiguating the shared address by writing 0xFF to register 0x10 and
reading it back (0x07 ⇒ PCF8523, else M41T81); neither ⇒ unknown/false.
On the unknown path `_RTCaddr` keeps its prior value, as in the source. -/
def RTC.begin {σ : Type} (W : Wire σ) (r : RTCState) (s : σ) :
    RTCState × σ × Bool :=
  let s := W.beginTransmission s M41T81_ADDR
  let et := W.endTransmission s
  if et.2 = 0 then
    (⟨RTCModel.M41T81, M41T81_ADDR⟩, et.1, true)
  else
    let s := W.beginTransmission et.1 PCF8523_ADDR
    let et2 := W.endTransmission s
    if et2.2 = 0 then
      let r' : RTCState := ⟨r._model, PCF8523_ADDR⟩
      let s := W.beginTransmission et2.1 r'._RTCaddr
      let s := W.write s 0x10
      let s := W.write s 0xff
      let s := (W.endTransmission s).1
      let s := RTC.readBytes W r' s 0x10 1
      let rd := W.read s
      if rd.2 = 0x07 then (⟨RTCModel.PCF8523, PCF8523_ADDR⟩, rd.1, true)
      else (⟨RTCModel.M41T81, PCF8523_ADDR⟩, rd.1, true)
    else (⟨RTCModel.unknown, r._RTCaddr⟩, et2.1, false)

/-- `RTC::isRunning` (RTC.cpp:719).  Bit operations on bytes are written
with `/` and `%`: `(b & 0xE0)` is `b / 32 % 8 * 32`, `(b & 0x80) >> 7` is
`b / 128 % 2`. -/
def RTC.isRunning {σ : Type} (W : Wire σ) (r : RTCState) (s : σ) : σ × Bool :=
  if r._model = RTCModel.unknown then (s, false)
  else if r._model = RTCModel.PCF8523 then
    let s := RTC.readBytes W r s PCF8523_CONTROL_3 1
    let rd := W.read s
    (rd.1, rd.2 / 32 % 8 * 32 != 224)
  else if r._model = RTCModel.M41T81 then
    let s := RTC.readBytes W r s 0x01 1
    let rd := W.read s
    (rd.1, rd.2 / 128 % 2 == 0)
  else (s, false)

/-- `RTC::lostPower` (RTC.cpp:735): `(b & 0x08) >> 3` resp. `(b & 0x40) >> 6`. -/
def RTC.lostPower {σ : Type} (W : Wire σ) (r : RTCState) (s : σ) : σ × Bool :=
  if r._model = RTCModel.unknown then (s, false)
  else if r._model = RTCModel.PCF8523 then
    let s := RTC.readBytes W r s PCF8523_CONTROL_3 1
    let rd := W.read s
    (rd.1, rd.2 / 8 % 2 != 0)
  else if r._model = RTCModel.M41T81 then
    let s := RTC.readBytes W r s 12 1
    let rd := W.read s
    (rd.1, rd.2 / 64 % 2 != 0)
  else (s, false)

/-- `RTC::resetLostPower` (RTC.cpp:750).  Note: no `unknown` guard in the
source — the trailing `write(0)` and the transaction happen for every model. -/
def RTC.resetLostPower {σ : Type} (W : Wire σ) (r : RTCState) (s : σ) : σ :=
  let s := W.beginTransmission s r._RTCaddr
  let s :=
    if r._model = RTCModel.PCF8523 then W.write s PCF8523_CONTROL_3
    else if r._model = RTCModel.M41T81 then W.write s 0x0C
    else s
  let s := W.write s 0
  (W.endTransmission s).1

/-- `RTC::adjust` (RTC.cpp:762). -/
def RTC.adjust {σ : Type} (W : Wire σ) (r : RTCState) (s : σ) (dt : DateTime) : σ :=
  if r._model = RTCModel.unknown then s
  else
    let s := W.beginTransmission s r._RTCaddr
    let s :=
      if r._model = RTCModel.PCF8523 then
        let s := W.write s PCF8523_CONTROL_3
        let s := W.write s 0x00
        let s := W.write s (bin2bcd dt.ss)
        let s := W.write s (bin2bcd dt.mm)
        let s := W.write s (bin2bcd dt.hh)
        let s := W.write s (bin2bcd dt.d)
        let s := W.write s (bin2bcd 0)
        let s := W.write s (bin2bcd dt.m)
        W.write s (bin2bcd (dt.year - 2000))
      else if r._model = RTCModel.M41T81 then
        let s := W.write s 0x01
        let s := W.write s (bin2bcd dt.ss)
        let s := W.write s (bin2bcd dt.mm)
        let s := W.write s (bin2bcd dt.hh)
        let s := W.write s 0x00
        let s := W.write s (bin2bcd dt.d)
        let s := W.write s (bin2bcd dt.m)
        let s := W.write s (bin2bcd (dt.year - 2000))
        let s := W.write s 0x80
        let s := W.write s 0x80
        let s := W.write s 0x00
        let s := W.write s 0x00
        let s := W.write s 0x00
        let s := W.write s 0x00
        let s := W.write s 0x00
        W.write s 0x00
      else s
    (W.endTransmission s).1

/-- `RTC::now` (RTC.cpp:799): burst-read 7 registers from the model's time
base (0x03 for PCF8523, 0x01 for M41T81), mask status bits
(`& 0x7F` = `% 128`, `& 0x3F` = `% 64`, `& 0x1F` = `% 32`), BCD-decode,
skip the weekday byte, and build a DateTime; unknown model returns the
sentinel 2000-01-01T00:00:00 without touching the bus. -/
def RTC.now {σ : Type} (W : Wire σ) (r : RTCState) (s : σ) : σ × DateTime :=
  if r._model = RTCModel.PCF8523 then
    let s := RTC.readBytes W r s 0x03 7
    let r1 := W.read s
    let ss := bcd2bin (r1.2 % 128)
    let r2 := W.read r1.1
    let mm := bcd2bin (r2.2 % 128)
    let r3 := W.read r2.1
    let hh := bcd2bin (r3.2 % 64)
    let r4 := W.read r3.1
    let d := bcd2bin (r4.2 % 64)
    let r5 := W.read r4.1
    let r6 := W.read r5.1
    let m := bcd2bin (r6.2 % 32)
    let r7 := W.read r6.1
    let y := bcd2bin r7.2 + 2000
    (r7.1, DateTime.mkFields y m d hh mm ss)
  else if r._model = RTCModel.M41T81 then
    let s := RTC.readBytes W r s 0x01 7
    let r1 := W.read s
    let ss := bcd2bin (r1.2 % 128)
    let r2 := W.read r1.1
    let mm := bcd2bin (r2.2 % 128)
    let r3 := W.read r2.1
    let hh := bcd2bin (r3.2 % 64)
    let r4 := W.read r3.1
    let r5 := W.read r4.1
    let d := bcd2bin (r5.2 % 64)
    let r6 := W.read r5.1
    let m := bcd2bin (r6.2 % 32)
    let r7 := W.read r6.1
    let y := bcd2bin r7.2 + 2000
    (r7.1, DateTime.mkFields y m d hh mm ss)
  else
    (s, DateTime.mkFields 0 1 1 0 0 0)

/-- `RTC::lowBattery` (RTC.cpp:827): PCF8523 tests `(b & 0x04) >> 2`
(= `b / 4 % 2`); the M41T81 branch is the literal `(b & 0x01) >> 4`
(= `b % 2 / 16`). -/
def RTC.lowBattery {σ : Type} (W : Wire σ) (r : RTCState) (s : σ) : σ × Bool :=
  if r._model = RTCModel.PCF8523 then
    let s := RTC.readBytes W r s PCF8523_CONTROL_3 1
    let rd := W.read s
    (rd.1, rd.2 / 4 % 2 != 0)
  else if r._model = RTCModel.M41T81 then
    let s := RTC.readBytes W r s 0x0F 1
    let rd := W.read s
    (rd.1, rd.2 % 2 / 16 != 0)
  else (s, false)

/-- `RTC::stop` (RTC.cpp:839): no `unknown` guard, but the unknown branch
writes no data bytes (empty transaction). -/
def RTC.stop {σ : Type} (W : Wire σ) (r : RTCState) (s : σ) : σ :=
  let s := W.beginTransmission s r._RTCaddr
  let s :=
    if r._model = RTCModel.PCF8523 then
      let s := W.write s PCF8523_CONTROL_3
      W.write s 0xE0
    else if r._model = RTCModel.M41T81 then
      let s := W.write s 0x01
      W.write s 0x80
    else s
  (W.endTransmission s).1

/-! ### Simulated buses

Modelled from the spec (§8): test doubles for the bus capability.  `SimBus`
is the register-backed simulation (writes land in a per-device register
file, reads return it, with the usual auto-incrementing register pointer);
`EchoBus` answers reads from a fixed `echo` table (modelling chip-specific
read-back such as the PCF8523's 0x07 at register 0x10) and discards write
data.  Both log every `write()` data byte and every completed transaction. -/

/-- Store a list of bytes at consecutive register addresses. -/
def storeList (f : Nat → Nat) (base : Nat) : List Nat → Nat → Nat
  | [], x => f x
  | v :: vs, x => storeList (fun j => if j = base then v else f j) (base + 1) vs x

/-- Register-backed simulated bus state. -/
structure SimBus where
  responds : Nat → Bool
  regs : Nat → Nat → Nat
  ptr : Nat → Nat
  curAddr : Nat
  curData : List Nat
  rx : List Nat
  txns : List (Nat × List Nat)
  writeLog : List Nat

/-- Wire implementation over `SimBus`.  A transaction's first byte sets the
device register pointer; the rest are stored with auto-increment; a read on
an empty receive queue returns 255 (`Wire.read()`'s -1 as a byte). -/
def simWire : Wire SimBus where
  beginTransmission s a := { s with curAddr := a, curData := [] }
  write s b :=
    { s with curData := s.curData ++ [b % 256], writeLog := s.writeLog ++ [b % 256] }
  endTransmission s :=
    if s.responds s.curAddr then
      match s.curData with
      | [] => ({ s with txns := s.txns ++ [(s.curAddr, s.curData)] }, 0)
      | a :: ds =>
        ({ s with
            regs := fun dev => if dev = s.curAddr then storeList (s.regs dev) a ds else s.regs dev,
            ptr := fun dev => if dev = s.curAddr then a + ds.length else s.ptr dev,
            txns := s.txns ++ [(s.curAddr, s.curData)] }, 0)
    else ({ s with txns := s.txns ++ [(s.curAddr, s.curData)] }, 4)
  requestFrom s a n :=
    if s.responds a then
      { s with rx := (List.range n).map (fun i => s.regs a (s.ptr a + i) % 256),
               ptr := fun dev => if dev = a then s.ptr a + n else s.ptr dev }
    else { s with rx := [] }
  read s :=
    match s.rx with
    | [] => (s, 255)
    | b :: t => ({ s with rx := t }, b)

/-- A fresh register-backed bus that responds at every address. -/
def SimBus.fresh (regs0 : Nat → Nat → Nat) : SimBus :=
  ⟨fun _ => true, regs0, fun _ => 0, 0, [], [], [], []⟩

/-- Echo-table simulated bus state. -/
structure EchoBus where
  responds : Nat → Bool
  echo : Nat → Nat → Nat
  ptr : Nat → Nat
  curAddr : Nat
  curData : List Nat
  rx : List Nat
  txns : List (Nat × List Nat)
  writeLog : List Nat

/-- Wire implementation over `EchoBus`: like `simWire` but reads come from
the fixed `echo` table. -/
def echoWire : Wire EchoBus where
  beginTransmission s a := { s with curAddr := a, curData := [] }
  write s b :=
    { s with curData := s.curData ++ [b % 256], writeLog := s.writeLog ++ [b % 256] }
  endTransmission s :=
    if s.responds s.curAddr then
      match s.curData with
      | [] => ({ s with txns := s.txns ++ [(s.curAddr, s.curData)] }, 0)
      | a :: ds =>
        ({ s with ptr := fun dev => if dev = s.curAddr then a + ds.length else s.ptr dev,
                  txns := s.txns ++ [(s.curAddr, s.curData)] }, 0)
    else ({ s with txns := s.txns ++ [(s.curAddr, s.curData)] }, 4)
  requestFrom s a n :=
    if s.responds a then
      { s with rx := (List.range n).map (fun i => s.echo a (s.ptr a + i) % 256),
               ptr := fun dev => if dev = a then s.ptr a + n else s.ptr dev }
    else { s with rx := [] }
  read s :=
    match s.rx with
    | [] => (s, 255)
    | b :: t => ({ s with rx := t }, b)

/-- A fresh echo bus. -/
def EchoBus.fresh (responds : Nat → Bool) (echo : Nat → Nat → Nat) : EchoBus :=
  ⟨responds, echo, fun _ => 0, 0, [], [], [], []⟩


/-! ### `DateTime::toString` access model

`toString` (RTC.cpp:314) scans a caller-supplied NUL-terminated template
in place.  The buffer is modelled as a byte function `Nat → Nat`; the model
records the set of buffer indices the scan loop reads (every index the loop
writes is always read first by the same iteration's token test, so the read
log covers all buffer accesses of the scan).  `strlen` is recomputed in the
loop condition exactly as in the source, and the `size_t` subtraction
`strlen(buffer) - 1` is modelled with its wraparound. -/

/-- Overwrite one buffer byte. -/
def bufWrite (buf : Nat → Nat) (i v : Nat) : Nat → Nat :=
  fun j => if j = i then v % 256 else buf j

/-- Write two consecutive bytes. -/
def bufW2 (buf : Nat → Nat) (i a b : Nat) : Nat → Nat :=
  bufWrite (bufWrite buf i a) (i + 1) b

/-- Write three consecutive bytes. -/
def bufW3 (buf : Nat → Nat) (i a b c : Nat) : Nat → Nat :=
  bufWrite (bufW2 buf i a b) (i + 2) c

/-- Write four consecutive bytes. -/
def bufW4 (buf : Nat → Nat) (i a b c d : Nat) : Nat → Nat :=
  bufWrite (bufW3 buf i a b c) (i + 3) d

/-- `strlen` scan: first index `≥ i` holding 0, giving up after `fuel`
steps. -/
def strlenGo (buf : Nat → Nat) : Nat → Nat → Nat
  | i, 0 => i
  | i, fuel + 1 => if buf i = 0 then i else strlenGo buf (i + 1) fuel

/-- `strlen(buffer)`, scanning at most `cap` bytes (the allocation bound of
the caller's array). -/
def cstrlen (buf : Nat → Nat) (cap : Nat) : Nat := strlenGo buf 0 cap

/-- `size_t` decrement: `n - 1` in 64-bit unsigned arithmetic; underflows to
`2^64 - 1` at `n = 0`. -/
def sub1sz (n : Nat) : Nat := (n + (2 ^ 64 - 1)) % 2 ^ 64

/-- `day_names` = "SunMonTueWedThuFriSat" (RTC.cpp:344), as bytes. -/
def dayNamesBytes : List Nat :=
  ['S', 'u', 'n', 'M', 'o', 'n', 'T', 'u', 'e', 'W', 'e', 'd',
   'T', 'h', 'u', 'F', 'r', 'i', 'S', 'a', 't'].map Char.toNat

/-- `month_names` = "JanFebMarAprMayJunJulAugSepOctNovDec" (RTC.cpp:356). -/
def monthNamesBytes : List Nat :=
  ['J', 'a', 'n', 'F', 'e', 'b', 'M', 'a', 'r', 'A', 'p', 'r',
   'M', 'a', 'y', 'J', 'u', 'n', 'J', 'u', 'l', 'A', 'u', 'g',
   'S', 'e', 'p', 'O', 'c', 't', 'N', 'o', 'v', 'D', 'e', 'c'].map Char.toNat

/-- `DateTime::dayOfTheWeek()` (RTC.cpp:421). -/
def DateTime.dayOfTheWeek (junk : Nat → Nat) (dt : DateTime) : Nat :=
  (date2days junk dt.yOff dt.m dt.d + 6) % 7

/-- `strstr(buffer, two-char token) != nullptr`, over the current string. -/
def strstr2 (buf : Nat → Nat) (len c1 c2 : Nat) : Bool :=
  (List.range len).any fun j => decide (j + 1 < len) && (buf j == c1) && (buf (j + 1) == c2)

/-! The scan loop body (RTC.cpp:330-394) is a sequence of in-place token
tests and replacements on the mutated buffer; each token's test-and-replace
is one combinator below, applied in the source's order.  Every index the
body writes is first read by the same token's test, so the read log
(`tsStepAcc`) covers all buffer accesses of the scan: `i` and `i + 1` by
every token test, `i + 2` after a `DD`/`MM`/`YY` match, and `i + 3` only
after `YY` followed by `Y` at `i + 2`, mirroring the `&&` short-circuit. -/

/-- A two-character token (`hh`, `mm`, `ss`): on match overwrite both
positions (RTC.cpp:330-341). -/
def tsTok2 (c1 c2 a b : Nat) (buf : Nat → Nat) (i : Nat) : Nat → Nat :=
  if buf i = c1 ∧ buf (i + 1) = c2 then bufW2 buf i a b else buf

/-- The `DD`/`DDD` token (RTC.cpp:342-353): weekday name on `DDD`,
two-digit day on `DD`. -/
def tsTokD (junk : Nat → Nat) (dt : DateTime) (buf : Nat → Nat) (i : Nat) :
    Nat → Nat :=
  if buf i = 'D'.toNat ∧ buf (i + 1) = 'D'.toNat then
    if buf (i + 2) = 'D'.toNat then
      bufW3 buf i (dayNamesBytes.getD (3 * DateTime.dayOfTheWeek junk dt) 0)
        (dayNamesBytes.getD (3 * DateTime.dayOfTheWeek junk dt + 1) 0)
        (dayNamesBytes.getD (3 * DateTime.dayOfTheWeek junk dt + 2) 0)
    else bufW2 buf i (48 + dt.d / 10) (48 + dt.d % 10)
  else buf

/-- The `MM`/`MMM` token (RTC.cpp:354-366): month name on `MMM`
(table index `3 * (m - 1)`), two-digit month on `MM`. -/
def tsTokM (dt : DateTime) (buf : Nat → Nat) (i : Nat) : Nat → Nat :=
  if buf i = 'M'.toNat ∧ buf (i + 1) = 'M'.toNat then
    if buf (i + 2) = 'M'.toNat then
      bufW3 buf i (monthNamesBytes.getD (3 * (dt.m - 1)) 0)
        (monthNamesBytes.getD (3 * (dt.m - 1) + 1) 0)
        (monthNamesBytes.getD (3 * (dt.m - 1) + 2) 0)
    else bufW2 buf i (48 + dt.m / 10) (48 + dt.m % 10)
  else buf

/-- The `YY`/`YYYY` token (RTC.cpp:367-377). -/
def tsTokY (dt : DateTime) (buf : Nat → Nat) (i : Nat) : Nat → Nat :=
  if buf i = 'Y'.toNat ∧ buf (i + 1) = 'Y'.toNat then
    if buf (i + 2) = 'Y'.toNat ∧ buf (i + 3) = 'Y'.toNat then
      bufW4 buf i 50 48 (48 + dt.yOff / 10 % 10) (48 + dt.yOff % 10)
    else bufW2 buf i (48 + dt.yOff / 10 % 10) (48 + dt.yOff % 10)
  else buf

/-- The `AP`/`ap` token (RTC.cpp:378-394, an `else if` chain). -/
def tsTokAP (isPM : Bool) (buf : Nat → Nat) (i : Nat) : Nat → Nat :=
  if buf i = 'A'.toNat ∧ buf (i + 1) = 'P'.toNat then
    if isPM then bufW2 buf i 'P'.toNat 'M'.toNat else bufW2 buf i 'A'.toNat 'M'.toNat
  else if buf i = 'a'.toNat ∧ buf (i + 1) = 'p'.toNat then
    if isPM then bufW2 buf i 'p'.toNat 'm'.toNat else bufW2 buf i 'a'.toNat 'm'.toNat
  else buf

/-- The buffer after one full iteration of the scan loop body at `i`. -/
def tsStepBuf (junk : Nat → Nat) (dt : DateTime) (hr : Nat) (isPM : Bool)
    (buf : Nat → Nat) (i : Nat) : Nat → Nat :=
  let b1 := tsTok2 'h'.toNat 'h'.toNat (48 + hr / 10) (48 + hr % 10) buf i
  let b2 := tsTok2 'm'.toNat 'm'.toNat (48 + dt.mm / 10) (48 + dt.mm % 10) b1 i
  let b3 := tsTok2 's'.toNat 's'.toNat (48 + dt.ss / 10) (48 + dt.ss % 10) b2 i
  let b4 := tsTokD junk dt b3 i
  let b5 := tsTokM dt b4 i
  let b6 := tsTokY dt b5 i
  tsTokAP isPM b6 i

/-- The buffer indices read by one iteration of the scan loop body at `i`. -/
def tsStepAcc (junk : Nat → Nat) (dt : DateTime) (hr : Nat) (isPM : Bool)
    (buf : Nat → Nat) (i : Nat) : List Nat :=
  let b1 := tsTok2 'h'.toNat 'h'.toNat (48 + hr / 10) (48 + hr % 10) buf i
  let b2 := tsTok2 'm'.toNat 'm'.toNat (48 + dt.mm / 10) (48 + dt.mm % 10) b1 i
  let b3 := tsTok2 's'.toNat 's'.toNat (48 + dt.ss / 10) (48 + dt.ss % 10) b2 i
  let b4 := tsTokD junk dt b3 i
  let b5 := tsTokM dt b4 i
  [i, i + 1]
    ++ (if b3 i = 'D'.toNat ∧ b3 (i + 1) = 'D'.toNat then [i + 2] else [])
    ++ (if b4 i = 'M'.toNat ∧ b4 (i + 1) = 'M'.toNat then [i + 2] else [])
    ++ (if b5 i = 'Y'.toNat ∧ b5 (i + 1) = 'Y'.toNat then
          [i + 2] ++ (if b5 (i + 2) = 'Y'.toNat then [i + 3] else [])
        else [])

/-- The `toString` scan loop (RTC.cpp:329):
`for (size_t i = 0; i < strlen(buffer) - 1; i++)`, with `strlen` recomputed
against the current buffer each iteration and the `size_t` underflow of the
bound kept; `fuel` bounds the modelled iterations (every recorded access is
independent of how much fuel remains). -/
def tsLoop (junk : Nat → Nat) (dt : DateTime) (hr : Nat) (isPM : Bool) (cap : Nat) :
    Nat → (Nat → Nat) → Nat → List Nat → (Nat → Nat) × List Nat
  | 0, buf, _, acc => (buf, acc)
  | fuel + 1, buf, i, acc =>
    if i < sub1sz (cstrlen buf cap) then
      tsLoop junk dt hr isPM cap fuel (tsStepBuf junk dt hr isPM buf i) (i + 1)
        (acc ++ tsStepAcc junk dt hr isPM buf i)
    else (buf, acc)

/-- `DateTime::toString(char *buffer)` (RTC.cpp:314): the `ap`/`AP` scan of
the original template, the 12-hour reformatting, and the scan loop; returns
the final buffer and the scan loop's read-access log. -/
def DateTime.toStringModel (junk : Nat → Nat) (dt : DateTime) (buf : Nat → Nat)
    (cap fuel : Nat) : (Nat → Nat) × List Nat :=
  let len0 := cstrlen buf cap
  let apTag := strstr2 buf len0 'a'.toNat 'p'.toNat || strstr2 buf len0 'A'.toNat 'P'.toNat
  let hr := if apTag then
      if dt.hh = 0 then 12
      else if dt.hh = 12 then dt.hh
      else if 12 < dt.hh then dt.hh - 12
      else dt.hh
    else dt.hh
  let isPM := apTag && ((dt.hh == 12) || decide (12 < dt.hh))
  tsLoop junk dt hr isPM cap fuel buf 0 []

/-- Well-formedness of a NUL-terminated string of length `L` in the buffer:
no NUL below `L`, NUL at `L`. -/
def BufInv (buf : Nat → Nat) (L : Nat) : Prop :=
  (∀ j, j < L → buf j ≠ 0) ∧ buf L = 0

/-! ### Calendar lemmas -/

set_option maxRecDepth 10000

lemma leapOf_lt_two (y : Nat) : leapOf y < 2 := by
  unfold leapOf; split <;> omega

lemma monthAccum_junk_free (junk : Nat → Nat) (k : Nat) (hk : k ≤ 11) :
    monthAccum junk k = monthAccum (fun _ => 0) k := by
  interval_cases k <;> rfl

lemma monthAccum_adj_eq_monthSumTo :
    ∀ l < 2, ∀ m' < 12,
      monthAccum (fun _ => 0) m' + (if 2 < m' + 1 ∧ l = 1 then 1 else 0)
        = monthSumTo l (m' + 1) := by decide

lemma monthSumTo_le (l : Nat) (hl : l < 2) (m : Nat) (hm : m ≤ 12) :
    monthSumTo l m ≤ 335 := by
  revert l m; decide

lemma monthLen_le_31 : ∀ l < 2, ∀ m' < 12, monthLen l (m' + 1) ≤ 31 := by decide

lemma yearSumFrom_snoc (n y0 : Nat) :
    yearSumFrom y0 (n + 1) = yearSumFrom y0 n + yearLenAbs (y0 + n) := by
  induction n generalizing y0 with
  | zero => simp [yearSumFrom]
  | succ n ih =>
    have h1 : yearSumFrom y0 (n + 1 + 1) = yearLenAbs y0 + yearSumFrom (y0 + 1) (n + 1) := rfl
    rw [h1, ih (y0 + 1)]
    have h2 : y0 + 1 + n = y0 + (n + 1) := by omega
    rw [h2]
    show yearLenAbs y0 + (yearSumFrom (y0 + 1) n + yearLenAbs (y0 + (n + 1)))
      = yearLenAbs y0 + yearSumFrom (y0 + 1) n + yearLenAbs (y0 + (n + 1))
    omega

lemma yearSumFrom_closed (y : Nat) : yearSumFrom 0 y = 365 * y + (y + 3) / 4 := by
  induction y with
  | zero => rfl
  | succ y ih =>
    rw [yearSumFrom_snoc, ih]
    unfold yearLenAbs leapOf
    by_cases h4 : y % 4 = 0
    · rw [if_pos (by omega : (0 + y) % 4 = 0)]; omega
    · rw [if_neg (by omega : ¬ (0 + y) % 4 = 0)]; omega

lemma yearLoop_exact :
    ∀ (n fuel y0 r : Nat), n < fuel → r < yearLenAbs (y0 + n) →
      yearLoop fuel (yearSumFrom y0 n + r) y0 = (y0 + n, r) := by
  intro n
  induction n with
  | zero =>
    intro fuel y0 r hf hr
    match fuel, hf with
    | fuel + 1, _ =>
      have hr' : r < 365 + (if y0 % 4 = 0 then 1 else 0) := by
        have : yearLenAbs (y0 + 0) = 365 + (if y0 % 4 = 0 then 1 else 0) := by
          unfold yearLenAbs leapOf; rw [Nat.add_zero]
        omega
      simp only [yearLoop, yearSumFrom, Nat.zero_add, Nat.add_zero]
      rw [if_pos hr']
  | succ n ih =>
    intro fuel y0 r hf hr
    match fuel, hf with
    | fuel + 1, hf =>
      have hsum : yearSumFrom y0 (n + 1) + r
          = yearLenAbs y0 + (yearSumFrom (y0 + 1) n + r) := by
        show yearLenAbs y0 + yearSumFrom (y0 + 1) n + r
          = yearLenAbs y0 + (yearSumFrom (y0 + 1) n + r)
        omega
      have hlen : yearLenAbs y0 = 365 + (if y0 % 4 = 0 then 1 else 0) := by
        unfold yearLenAbs leapOf; rfl
      simp only [yearLoop]
      rw [if_neg (by omega : ¬ yearSumFrom y0 (n + 1) + r < 365 + (if y0 % 4 = 0 then 1 else 0))]
      have hsub : yearSumFrom y0 (n + 1) + r - (365 + (if y0 % 4 = 0 then 1 else 0))
          = yearSumFrom (y0 + 1) n + r := by omega
      rw [hsub]
      have hidx : y0 + 1 + n = y0 + (n + 1) := by omega
      rw [ih fuel (y0 + 1) r (by omega) (by rw [hidx]; exact hr), hidx]

lemma yearLoop_bound :
    ∀ (fuel days y0 : Nat), days ≤ 365 * fuel →
      (yearLoop fuel days y0).2 < yearLenAbs (yearLoop fuel days y0).1 := by
  intro fuel
  induction fuel with
  | zero =>
    intro days y0 h
    have hd : days = 0 := by omega
    subst hd
    simp only [yearLoop]
    unfold yearLenAbs leapOf; split <;> omega
  | succ fuel ih =>
    intro days y0 h
    simp only [yearLoop]
    by_cases hexit : days < 365 + (if y0 % 4 = 0 then 1 else 0)
    · rw [if_pos hexit]
      unfold yearLenAbs leapOf
      simpa using hexit
    · rw [if_neg hexit]
      exact ih _ (y0 + 1) (by omega)

lemma ctorMonthLoop_exact :
    ∀ l < 2, ∀ m' < 12, ∀ r < 31,
      r < monthLen l (m' + 1) →
        ctorMonthLoop l 12 1 (monthSumTo l (m' + 1) + r) = (m' + 1, r) := by decide

lemma ctorMonthLoop_bound :
    ∀ l < 2, ∀ days < 366, days < 365 + l →
      1 ≤ (ctorMonthLoop l 12 1 days).1 ∧ (ctorMonthLoop l 12 1 days).1 ≤ 12 ∧
        (ctorMonthLoop l 12 1 days).2 + 1 ≤ monthLen l (ctorMonthLoop l 12 1 days).1 := by
  decide

lemma monthSumTo_day_lt_yearLen :
    ∀ l < 2, ∀ m' < 12, ∀ d' < 31,
      d' + 1 ≤ monthLen l (m' + 1) → monthSumTo l (m' + 1) + d' < 365 + l := by decide

lemma date2days_valid (junk : Nat → Nat) {y m d : Nat}
    (hy : y ≤ 99) (hm1 : 1 ≤ m) (hm : m ≤ 12) (hd1 : 1 ≤ d) (hd : d ≤ 31) :
    date2days junk y m d = dateDaysIdx y m d ∧ dateDaysIdx y m d ≤ 36525 := by
  have hysf : yearSumFrom 0 y = 365 * y + (y + 3) / 4 := yearSumFrom_closed y
  have hmst : monthSumTo (leapOf y) m ≤ 335 :=
    monthSumTo_le _ (leapOf_lt_two y) m (by omega)
  have hadj := monthAccum_adj_eq_monthSumTo (leapOf y) (leapOf_lt_two y) (m - 1) (by omega)
  have hm' : m - 1 + 1 = m := by omega
  rw [hm'] at hadj
  have hleap : leapOf y = 1 ↔ y % 4 = 0 := by
    unfold leapOf; split <;> simp_all
  constructor
  · simp only [date2days, dateDaysIdx]
    rw [if_neg (by omega : ¬ 2000 ≤ y),
        monthAccum_junk_free junk (m - 1) (by omega)]
    by_cases hc : 2 < m ∧ y % 4 = 0
    · rw [if_pos hc, if_pos (by exact ⟨hc.1, hleap.2 hc.2⟩)] at *
      omega
    · rw [if_neg hc, if_neg (by intro hq; exact hc ⟨hq.1, hleap.1 hq.2⟩)] at *
      omega
  · simp only [dateDaysIdx]
    omega

lemma unixtime_valid (junk : Nat → Nat) (dt : DateTime) (h : ValidTuple dt) :
    dt.unixtime junk
        = dateDaysIdx dt.yOff dt.m dt.d * 86400 + dt.hh * 3600 + dt.mm * 60 + dt.ss
            + SECONDS_FROM_1970_TO_2000
      ∧ dateDaysIdx dt.yOff dt.m dt.d ≤ 36525 := by
  obtain ⟨hy, hm1, hm, hd1, hd, hhh, hmm, hss⟩ := h
  have hd31 : dt.d ≤ 31 := by
    have := monthLen_le_31 (leapOf dt.yOff) (leapOf_lt_two _) (dt.m - 1) (by omega)
    have hm' : dt.m - 1 + 1 = dt.m := by omega
    rw [hm'] at this
    omega
  obtain ⟨hdd, hbound⟩ := date2days_valid junk hy hm1 hm hd1 hd31
  refine ⟨?_, hbound⟩
  simp only [DateTime.unixtime, time2ulong, SECONDS_FROM_1970_TO_2000, hdd]
  omega


lemma valid_roundtrip (junk : Nat → Nat) (dt : DateTime) (h : ValidTuple dt) :
    DateTime.fromUnix (dt.unixtime junk) = dt := by
  obtain ⟨hu, hI⟩ := unixtime_valid junk dt h
  obtain ⟨hy, hm1, hm, hd1, hd, hhh, hmm, hss⟩ := h
  obtain ⟨m', hm'eq⟩ : ∃ m', dt.m = m' + 1 := ⟨dt.m - 1, by omega⟩
  obtain ⟨d', hd'eq⟩ : ∃ d', dt.d = d' + 1 := ⟨dt.d - 1, by omega⟩
  rw [hm'eq, hd'eq] at hd
  have hm'12 : m' < 12 := by omega
  have hmlen := monthLen_le_31 (leapOf dt.yOff) (leapOf_lt_two _) m' hm'12
  have hd'31 : d' < 31 := by omega
  have hIdef : dateDaysIdx dt.yOff dt.m dt.d
      = yearSumFrom 0 dt.yOff + (monthSumTo (leapOf dt.yOff) (m' + 1) + d') := by
    simp only [dateDaysIdx]
    rw [hm'eq, hd'eq]
    simp only [Nat.add_sub_cancel]
    omega
  set I := dateDaysIdx dt.yOff dt.m dt.d with hIs
  rw [hu]
  simp only [DateTime.fromUnix, SECONDS_FROM_1970_TO_2000]
  have e1 : (I * 86400 + dt.hh * 3600 + dt.mm * 60 + dt.ss + 946684800) % 4294967296
      = I * 86400 + dt.hh * 3600 + dt.mm * 60 + dt.ss + 946684800 := by omega
  have e2 : (I * 86400 + dt.hh * 3600 + dt.mm * 60 + dt.ss + 946684800
        + (4294967296 - 946684800)) % 4294967296
      = I * 86400 + dt.hh * 3600 + dt.mm * 60 + dt.ss := by omega
  simp only [e1, e2]
  have e3 : (I * 86400 + dt.hh * 3600 + dt.mm * 60 + dt.ss) % 60 = dt.ss := by omega
  have e4 : (I * 86400 + dt.hh * 3600 + dt.mm * 60 + dt.ss) / 60 % 60 = dt.mm := by omega
  have e5 : (I * 86400 + dt.hh * 3600 + dt.mm * 60 + dt.ss) / 60 / 60 % 24 = dt.hh := by
    omega
  have e6 : (I * 86400 + dt.hh * 3600 + dt.mm * 60 + dt.ss) / 60 / 60 / 24 = I := by omega
  simp only [e3, e4, e5, e6]
  have hrlt : monthSumTo (leapOf dt.yOff) (m' + 1) + d' < yearLenAbs (0 + dt.yOff) := by
    have := monthSumTo_day_lt_yearLen (leapOf dt.yOff) (leapOf_lt_two _) m' hm'12 d' hd'31 hd
    simp only [yearLenAbs, Nat.zero_add]
    omega
  have hyfuel : dt.yOff < I + 1 := by
    have := yearSumFrom_closed dt.yOff
    omega
  have hyl : yearLoop (I + 1) I 0 = (0 + dt.yOff, monthSumTo (leapOf dt.yOff) (m' + 1) + d') := by
    calc yearLoop (I + 1) I 0
        = yearLoop (I + 1) (yearSumFrom 0 dt.yOff + (monthSumTo (leapOf dt.yOff) (m' + 1) + d')) 0 := by
          rw [← hIdef]
      _ = (0 + dt.yOff, monthSumTo (leapOf dt.yOff) (m' + 1) + d') :=
          yearLoop_exact dt.yOff (I + 1) 0 _ hyfuel hrlt
  simp only [hyl, Nat.zero_add]
  have hlf : (if dt.yOff % 4 = 0 then 1 else 0) = leapOf dt.yOff := rfl
  have hml : ctorMonthLoop (leapOf dt.yOff) 12 1 (monthSumTo (leapOf dt.yOff) (m' + 1) + d')
      = (m' + 1, d') :=
    ctorMonthLoop_exact (leapOf dt.yOff) (leapOf_lt_two _) m' hm'12 d' hd'31 (by omega)
  simp only [hlf, hml]
  have heta : dt = ⟨dt.yOff, dt.m, dt.d, dt.hh, dt.mm, dt.ss⟩ := rfl
  rw [heta, DateTime.mk.injEq]
  exact ⟨rfl, by omega, by omega, rfl, rfl, rfl⟩

lemma fromUnix_ranges (t : Nat) :
    1 ≤ (DateTime.fromUnix t).m ∧ (DateTime.fromUnix t).m ≤ 12 ∧
      1 ≤ (DateTime.fromUnix t).d ∧
      (DateTime.fromUnix t).d
          ≤ monthLen (leapOf (DateTime.fromUnix t).yOff) (DateTime.fromUnix t).m ∧
      (DateTime.fromUnix t).hh ≤ 23 ∧ (DateTime.fromUnix t).mm ≤ 59 ∧
      (DateTime.fromUnix t).ss ≤ 59 := by
  obtain ⟨t1, days, yd, md, ht1, hdays, hyd, hmd, heq⟩ :
      ∃ t1 days yd md,
        t1 = (t % 4294967296 + (4294967296 - SECONDS_FROM_1970_TO_2000)) % 4294967296 ∧
        days = t1 / 60 / 60 / 24 ∧
        yd = yearLoop (days + 1) days 0 ∧
        md = ctorMonthLoop (if yd.1 % 4 = 0 then 1 else 0) 12 1 yd.2 ∧
        DateTime.fromUnix t
          = ⟨yd.1, md.1, md.2 + 1, t1 / 60 / 60 % 24, t1 / 60 % 60, t1 % 60⟩ :=
    ⟨_, _, _, _, rfl, rfl, rfl, rfl, rfl⟩
  rw [heq]
  dsimp only
  have hyb := yearLoop_bound (days + 1) days 0 (by omega)
  rw [← hyd] at hyb
  have hylen : yearLenAbs yd.1 = 365 + leapOf yd.1 := rfl
  have hmb := ctorMonthLoop_bound (leapOf yd.1) (leapOf_lt_two _) yd.2
    (by have := leapOf_lt_two yd.1; omega) (by omega)
  have hlf : (if yd.1 % 4 = 0 then 1 else 0) = leapOf yd.1 := rfl
  rw [hlf] at hmd
  rw [← hmd] at hmb
  exact ⟨hmb.1, hmb.2.1, by omega, by have := hmb.2.2; omega, by omega, by omega, by omega⟩

/-! ### Claim theorems: calendar -/

lemma validTuple_mk {y m d hh mm ss : Nat} :
    ValidTuple ⟨y, m, d, hh, mm, ss⟩ ↔
      y ≤ 99 ∧ 1 ≤ m ∧ m ≤ 12 ∧ 1 ≤ d ∧ d ≤ monthLen (leapOf y) m ∧
        hh ≤ 23 ∧ mm ≤ 59 ∧ ss ≤ 59 := Iff.rfl

lemma unixtime_mk (junk : Nat → Nat) {y m d hh mm ss : Nat}
    (h : ValidTuple ⟨y, m, d, hh, mm, ss⟩) :
    DateTime.unixtime junk ⟨y, m, d, hh, mm, ss⟩
        = dateDaysIdx y m d * 86400 + hh * 3600 + mm * 60 + ss + SECONDS_FROM_1970_TO_2000
      ∧ dateDaysIdx y m d ≤ 36525 :=
  unixtime_valid junk _ h

/-- C3: for every valid field tuple (year 2000..2099, month 1..12, day valid
for the month and leap year, hour 0..23, minute/second 0..59), constructing a
DateTime from the fields, converting with `unixtime()`, and reconstructing a
DateTime from that epoch-seconds value yields identical field values, and
`isValid()` on the original DateTime returns `true`. -/
theorem c3_unixtime_roundtrip (junk : Nat → Nat)
    (year month day hour minute sec : Nat)
    (hy1 : 2000 ≤ year) (hy2 : year ≤ 2099)
    (h : ValidTuple (DateTime.mkFields year month day hour minute sec)) :
    DateTime.fromUnix
        (DateTime.unixtime junk (DateTime.mkFields year month day hour minute sec))
        = DateTime.mkFields year month day hour minute sec
      ∧ DateTime.isValid junk (DateTime.mkFields year month day hour minute sec) = true := by
  refine ⟨valid_roundtrip junk _ h, ?_⟩
  have hy : (DateTime.mkFields year month day hour minute sec).yOff ≤ 99 := h.1
  simp only [DateTime.isValid]
  rw [if_neg (by omega), valid_roundtrip junk _ h]
  simp

/-- C3 witness: the leap-day tuple 2020-02-29T23:59:59 is valid, round-trips
through `unixtime`, and is reported valid. -/
theorem c3_unixtime_roundtrip_witness :
    (2000 ≤ 2020 ∧ 2020 ≤ 2099 ∧ ValidTuple (DateTime.mkFields 2020 2 29 23 59 59)) ∧
      (DateTime.fromUnix
          (DateTime.unixtime (fun _ => 0) (DateTime.mkFields 2020 2 29 23 59 59))
          = DateTime.mkFields 2020 2 29 23 59 59
        ∧ DateTime.isValid (fun _ => 0) (DateTime.mkFields 2020 2 29 23 59 59) = true) :=
  ⟨⟨by decide, by decide, by decide⟩,
    c3_unixtime_roundtrip (fun _ => 0) 2020 2 29 23 59 59 (by decide) (by decide) (by decide)⟩

/-- C4: a DateTime whose stored fields are an invalid tuple with
`yOff < 100` (day not existing in that month/year, or month/hour/minute/
second out of range) has `isValid() = false`; and any DateTime with
`yOff ≥ 100` has `isValid() = false`. -/
theorem c4_invalid_isValid_false (junk : Nat → Nat) (dt : DateTime) :
    (dt.yOff < 100 → ¬ ValidTuple dt → dt.isValid junk = false) ∧
      (100 ≤ dt.yOff → dt.isValid junk = false) := by
  constructor
  · intro hy hnv
    cases hb : dt.isValid junk with
    | false => rfl
    | true =>
      exfalso
      apply hnv
      simp only [DateTime.isValid] at hb
      rw [if_neg (by omega)] at hb
      simp only [Bool.and_eq_true, beq_iff_eq] at hb
      obtain ⟨⟨⟨⟨⟨h1, h2⟩, h3⟩, h4⟩, h5⟩, h6⟩ := hb
      have hr := fromUnix_ranges (dt.unixtime junk)
      refine ⟨by omega, ?_, ?_, ?_, ?_, ?_, ?_, ?_⟩
      · rw [h2]; exact hr.1
      · rw [h2]; exact hr.2.1
      · rw [h3]; exact hr.2.2.1
      · rw [h3, h2, h1]; exact hr.2.2.2.1
      · rw [h4]; exact hr.2.2.2.2.1
      · rw [h5]; exact hr.2.2.2.2.2.1
      · rw [h6]; exact hr.2.2.2.2.2.2
  · intro hy
    simp only [DateTime.isValid]
    rw [if_pos hy]

/-- C4 witness: 2021-02-30 (a day that does not exist) is reported invalid,
and a DateTime with `yOff = 150 ≥ 100` is reported invalid. -/
theorem c4_invalid_isValid_false_witness :
    ((⟨21, 2, 30, 0, 0, 0⟩ : DateTime).yOff < 100 ∧ ¬ ValidTuple ⟨21, 2, 30, 0, 0, 0⟩ ∧
        DateTime.isValid (fun _ => 0) ⟨21, 2, 30, 0, 0, 0⟩ = false) ∧
      (100 ≤ (⟨150, 1, 1, 0, 0, 0⟩ : DateTime).yOff ∧
        DateTime.isValid (fun _ => 0) ⟨150, 1, 1, 0, 0, 0⟩ = false) :=
  ⟨⟨by decide, by decide,
      (c4_invalid_isValid_false (fun _ => 0) ⟨21, 2, 30, 0, 0, 0⟩).1 (by decide) (by decide)⟩,
    ⟨by decide,
      (c4_invalid_isValid_false (fun _ => 0) ⟨150, 1, 1, 0, 0, 0⟩).2 (by decide)⟩⟩

lemma monthSumTo_step :
    ∀ l < 2, ∀ mv < 13, 1 ≤ mv → monthSumTo l mv + 28 ≤ monthSumTo l (mv + 1) := by
  decide

lemma monthSumTo_cross :
    ∀ l1 < 2, ∀ l2 < 2, ∀ mv < 13, monthSumTo l1 mv ≤ monthSumTo l2 mv + 1 := by
  decide

/-- C5: `unixtime()` is strictly increasing when any single field of a valid
DateTime is incremented (the incremented tuple still being valid) with all
other fields held fixed: second, minute, hour, day, month, and year each
strictly increase the result. -/
theorem c5_unixtime_strict_mono (junk : Nat → Nat) (y m d hh mm ss : Nat)
    (h : ValidTuple ⟨y, m, d, hh, mm, ss⟩) :
    (ValidTuple ⟨y, m, d, hh, mm, ss + 1⟩ →
        DateTime.unixtime junk ⟨y, m, d, hh, mm, ss⟩
          < DateTime.unixtime junk ⟨y, m, d, hh, mm, ss + 1⟩) ∧
    (ValidTuple ⟨y, m, d, hh, mm + 1, ss⟩ →
        DateTime.unixtime junk ⟨y, m, d, hh, mm, ss⟩
          < DateTime.unixtime junk ⟨y, m, d, hh, mm + 1, ss⟩) ∧
    (ValidTuple ⟨y, m, d, hh + 1, mm, ss⟩ →
        DateTime.unixtime junk ⟨y, m, d, hh, mm, ss⟩
          < DateTime.unixtime junk ⟨y, m, d, hh + 1, mm, ss⟩) ∧
    (ValidTuple ⟨y, m, d + 1, hh, mm, ss⟩ →
        DateTime.unixtime junk ⟨y, m, d, hh, mm, ss⟩
          < DateTime.unixtime junk ⟨y, m, d + 1, hh, mm, ss⟩) ∧
    (ValidTuple ⟨y, m + 1, d, hh, mm, ss⟩ →
        DateTime.unixtime junk ⟨y, m, d, hh, mm, ss⟩
          < DateTime.unixtime junk ⟨y, m + 1, d, hh, mm, ss⟩) ∧
    (ValidTuple ⟨y + 1, m, d, hh, mm, ss⟩ →
        DateTime.unixtime junk ⟨y, m, d, hh, mm, ss⟩
          < DateTime.unixtime junk ⟨y + 1, m, d, hh, mm, ss⟩) := by
  rw [validTuple_mk] at h
  refine ⟨?_, ?_, ?_, ?_, ?_, ?_⟩ <;> intro h'
  · obtain ⟨e1, b1⟩ := unixtime_mk junk (validTuple_mk.2 h)
    obtain ⟨e2, b2⟩ := unixtime_mk junk h'
    rw [e1, e2]; omega
  · obtain ⟨e1, b1⟩ := unixtime_mk junk (validTuple_mk.2 h)
    obtain ⟨e2, b2⟩ := unixtime_mk junk h'
    rw [e1, e2]; omega
  · obtain ⟨e1, b1⟩ := unixtime_mk junk (validTuple_mk.2 h)
    obtain ⟨e2, b2⟩ := unixtime_mk junk h'
    rw [e1, e2]; omega
  · obtain ⟨e1, b1⟩ := unixtime_mk junk (validTuple_mk.2 h)
    obtain ⟨e2, b2⟩ := unixtime_mk junk h'
    rw [e1, e2]
    have hidx : dateDaysIdx y m (d + 1) = dateDaysIdx y m d + 1 := by
      simp only [dateDaysIdx]
      have hd1 : 1 ≤ d := h.2.2.2.1
      omega
    omega
  · obtain ⟨e1, b1⟩ := unixtime_mk junk (validTuple_mk.2 h)
    obtain ⟨e2, b2⟩ := unixtime_mk junk h'
    rw [e1, e2]
    have hstep := monthSumTo_step (leapOf y) (leapOf_lt_two y) m (by omega) h.2.1
    have hidx : dateDaysIdx y m d + 28 ≤ dateDaysIdx y (m + 1) d := by
      simp only [dateDaysIdx]
      omega
    omega
  · obtain ⟨e1, b1⟩ := unixtime_mk junk (validTuple_mk.2 h)
    obtain ⟨e2, b2⟩ := unixtime_mk junk h'
    rw [e1, e2]
    have hc1 := yearSumFrom_closed y
    have hc2 := yearSumFrom_closed (y + 1)
    have hcross := monthSumTo_cross (leapOf y) (leapOf_lt_two y)
      (leapOf (y + 1)) (leapOf_lt_two (y + 1)) m (by omega)
    have hidx : dateDaysIdx y m d < dateDaysIdx (y + 1) m d := by
      simp only [dateDaysIdx]
      omega
    omega

/-- C5 witness: at 2021-05-10T03:04:05 each of the six single-field
increments is valid and strictly increases `unixtime`. -/
theorem c5_unixtime_strict_mono_witness :
    ValidTuple ⟨21, 5, 10, 3, 4, 5⟩ ∧
    (DateTime.unixtime (fun _ => 0) ⟨21, 5, 10, 3, 4, 5⟩
        < DateTime.unixtime (fun _ => 0) ⟨21, 5, 10, 3, 4, 6⟩) ∧
    (DateTime.unixtime (fun _ => 0) ⟨21, 5, 10, 3, 4, 5⟩
        < DateTime.unixtime (fun _ => 0) ⟨21, 5, 10, 3, 5, 5⟩) ∧
    (DateTime.unixtime (fun _ => 0) ⟨21, 5, 10, 3, 4, 5⟩
        < DateTime.unixtime (fun _ => 0) ⟨21, 5, 10, 4, 4, 5⟩) ∧
    (DateTime.unixtime (fun _ => 0) ⟨21, 5, 10, 3, 4, 5⟩
        < DateTime.unixtime (fun _ => 0) ⟨21, 5, 11, 3, 4, 5⟩) ∧
    (DateTime.unixtime (fun _ => 0) ⟨21, 5, 10, 3, 4, 5⟩
        < DateTime.unixtime (fun _ => 0) ⟨21, 6, 10, 3, 4, 5⟩) ∧
    (DateTime.unixtime (fun _ => 0) ⟨21, 5, 10, 3, 4, 5⟩
        < DateTime.unixtime (fun _ => 0) ⟨22, 5, 10, 3, 4, 5⟩) := by
  have h := c5_unixtime_strict_mono (fun _ => 0) 21 5 10 3 4 5 (by decide)
  exact ⟨by decide, h.1 (by decide), h.2.1 (by decide), h.2.2.1 (by decide),
    h.2.2.2.1 (by decide), h.2.2.2.2.1 (by decide), h.2.2.2.2.2 (by decide)⟩

lemma bcd_roundtrip_aux : ∀ v < 100, bcd2bin (bin2bcd v) = v := by decide

/-- C9: for every `v` with `0 ≤ v ≤ 99`, `bcd2bin (bin2bcd v) = v`: the BCD
encoding used when writing RTC registers and the decoding used when reading
them are mutually inverse over the two-decimal-digit range. -/
theorem c9_bcd_roundtrip (v : Nat) (h : v ≤ 99) : bcd2bin (bin2bcd v) = v :=
  bcd_roundtrip_aux v (by omega)

/-- C9 witness at `v = 59`. -/
theorem c9_bcd_roundtrip_witness : (59 : Nat) ≤ 99 ∧ bcd2bin (bin2bcd 59) = 59 :=
  ⟨by decide, c9_bcd_roundtrip 59 (by decide)⟩

/-! ### Claim theorems: ISO-8601 constructor -/

lemma conv2d_congr (p q : Nat → Nat) (off : Nat)
    (h1 : p off = q off) (h2 : p (off + 1) = q (off + 1)) :
    conv2d p off = conv2d q off := by
  simp only [conv2d, h1, h2]

lemma isoRef_default (s : List Nat) (j : Nat) (h : s.length ≤ j) (hj : j < 19) :
    isoRef s j = isoTemplateBytes.getD j 0 := by
  unfold isoRef
  rw [if_neg (by omega)]

lemma isoRef_take (s : List Nat) (j : Nat) (hj : j < 19) :
    isoRef (s.take 19) j = isoRef s j := by
  unfold isoRef
  rw [List.length_take]
  have hmin : min 19 (min 19 s.length) = min 19 s.length := by omega
  rw [hmin]
  by_cases hlt : j < min 19 s.length
  · rw [if_pos hlt, if_pos hlt]
    simp only [List.getD, List.get?_eq_getElem?]
    rw [List.getElem?_take_of_lt hj]
  · rw [if_neg hlt, if_neg hlt]

/-- C8: the ISO-8601 constructor overlays exactly `min(19, length)` leading
input bytes onto the template `"2000-01-01T00:00:00"` and parses fixed
offsets, so (a) bytes beyond position 19 are ignored, and (b) a
shorter-than-19 input leaves every field parsed wholly beyond the input at
the template's default (second/minute/hour 0, day/month 1, year-offset 0);
the constructor always produces a DateTime — no error is reported. -/
theorem c8_iso8601_truncation (s : List Nat) :
    DateTime.fromISO8601 s = DateTime.fromISO8601 (s.take 19) ∧
    (s.length ≤ 17 → (DateTime.fromISO8601 s).ss = 0) ∧
    (s.length ≤ 14 → (DateTime.fromISO8601 s).mm = 0) ∧
    (s.length ≤ 11 → (DateTime.fromISO8601 s).hh = 0) ∧
    (s.length ≤ 8 → (DateTime.fromISO8601 s).d = 1) ∧
    (s.length ≤ 5 → (DateTime.fromISO8601 s).m = 1) ∧
    (s.length ≤ 2 → (DateTime.fromISO8601 s).yOff = 0) := by
  refine ⟨?_, ?_, ?_, ?_, ?_, ?_, ?_⟩
  · simp only [DateTime.fromISO8601, DateTime.mk.injEq]
    refine ⟨?_, ?_, ?_, ?_, ?_, ?_⟩ <;>
      exact congrArg (· % 256) (conv2d_congr _ _ _
        (isoRef_take s _ (by omega)).symm (isoRef_take s _ (by omega)).symm)
  · intro hlen
    have hc : conv2d (isoRef s) 17 = 0 := by
      simp only [conv2d]
      rw [isoRef_default s 17 (by omega) (by omega),
          isoRef_default s 18 (by omega) (by omega)]
      decide
    show conv2d (isoRef s) 17 % 256 = 0
    rw [hc]
  · intro hlen
    have hc : conv2d (isoRef s) 14 = 0 := by
      simp only [conv2d]
      rw [isoRef_default s 14 (by omega) (by omega),
          isoRef_default s 15 (by omega) (by omega)]
      decide
    show conv2d (isoRef s) 14 % 256 = 0
    rw [hc]
  · intro hlen
    have hc : conv2d (isoRef s) 11 = 0 := by
      simp only [conv2d]
      rw [isoRef_default s 11 (by omega) (by omega),
          isoRef_default s 12 (by omega) (by omega)]
      decide
    show conv2d (isoRef s) 11 % 256 = 0
    rw [hc]
  · intro hlen
    have hc : conv2d (isoRef s) 8 = 1 := by
      simp only [conv2d]
      rw [isoRef_default s 8 (by omega) (by omega),
          isoRef_default s 9 (by omega) (by omega)]
      decide
    show conv2d (isoRef s) 8 % 256 = 1
    rw [hc]
  · intro hlen
    have hc : conv2d (isoRef s) 5 = 1 := by
      simp only [conv2d]
      rw [isoRef_default s 5 (by omega) (by omega),
          isoRef_default s 6 (by omega) (by omega)]
      decide
    show conv2d (isoRef s) 5 % 256 = 1
    rw [hc]
  · intro hlen
    have hc : conv2d (isoRef s) 2 = 0 := by
      simp only [conv2d]
      rw [isoRef_default s 2 (by omega) (by omega),
          isoRef_default s 3 (by omega) (by omega)]
      decide
    show conv2d (isoRef s) 2 % 256 = 0
    rw [hc]

/-- C8 witness: the 7-byte input "2020-06" parses year and month from the
input and leaves day = 1 and hour = minute = second = 0 from the template. -/
theorem c8_iso8601_truncation_witness :
    ("2020-06".toList.map Char.toNat).length ≤ 17 ∧
    (DateTime.fromISO8601 ("2020-06".toList.map Char.toNat)).ss = 0 ∧
    (DateTime.fromISO8601 ("2020-06".toList.map Char.toNat)).d = 1 ∧
    DateTime.fromISO8601 ("2020-06".toList.map Char.toNat) = ⟨20, 6, 1, 0, 0, 0⟩ :=
  ⟨by decide,
   (c8_iso8601_truncation ("2020-06".toList.map Char.toNat)).2.1 (by decide),
   (c8_iso8601_truncation ("2020-06".toList.map Char.toNat)).2.2.2.2.1 (by decide),
   by decide⟩

/-! ### Claim theorems: RTC driver -/

lemma lowBat_expr (b : Nat) : (b % 2 / 16 != 0) = false := by
  have h : b % 2 / 16 = 0 := by omega
  rw [h]
  rfl

/-- C1 (code bug): for the M41T81 the source computes
`(read & 0x01) >> 4`, which is 0 for every byte, so `lowBattery()` returns
`false` no matter what the status register 0x0F holds — in particular for
the claim's failing input 0x01 (bit 0 set), where the claim says `true`.
The intended `(read & 0x01)` would return bit 0. -/
theorem c1_lowBattery_m41t81_always_false (s : EchoBus) (a : Nat) :
    (RTC.lowBattery echoWire ⟨RTCModel.M41T81, a⟩ s).2 = false := by
  show ((echoWire.read (RTC.readBytes echoWire ⟨RTCModel.M41T81, a⟩ s 0x0F 1)).2
      % 2 / 16 != 0) = false
  exact lowBat_expr _

/-- C2 counterexample: with the model `unknown` (failed initialization) and
a register-backed bus that answers at no address, `resetLostPower()` still
issues a `write(0)` data byte on the bus — the claim's "performs no bus
writes" is false at this input. -/
theorem c2_resetLostPower_writes_counterexample :
    (RTC.resetLostPower simWire ⟨RTCModel.unknown, 3⟩
        ⟨fun _ => false, fun _ _ => 0, fun _ => 0, 0, [], [], [], []⟩).writeLog = [0] ∧
      ([0] : List Nat) ≠ [] := by
  exact ⟨by decide, by decide⟩

/-- C2 (amended): after a failed initialization (`unknown` model, retained
address `a`), on any register-backed bus state: `now()` returns the sentinel
2000-01-01T00:00:00 without touching the bus; `isRunning()`, `lostPower()`
and `lowBattery()` return `false` without touching the bus; `adjust()` is a
complete no-op; `stop()` opens and closes an addressed transaction but
writes no data byte; but `resetLostPower()` does write a single 0x00 data
byte in a transaction to the retained address. -/
theorem c2_unknown_model_behavior (s : SimBus) (a : Nat) (dt : DateTime) :
    RTC.now simWire ⟨RTCModel.unknown, a⟩ s = (s, ⟨0, 1, 1, 0, 0, 0⟩) ∧
    RTC.isRunning simWire ⟨RTCModel.unknown, a⟩ s = (s, false) ∧
    RTC.lostPower simWire ⟨RTCModel.unknown, a⟩ s = (s, false) ∧
    RTC.lowBattery simWire ⟨RTCModel.unknown, a⟩ s = (s, false) ∧
    RTC.adjust simWire ⟨RTCModel.unknown, a⟩ s dt = s ∧
    (RTC.stop simWire ⟨RTCModel.unknown, a⟩ s).writeLog = s.writeLog ∧
    (RTC.stop simWire ⟨RTCModel.unknown, a⟩ s).txns = s.txns ++ [(a, [])] ∧
    (RTC.resetLostPower simWire ⟨RTCModel.unknown, a⟩ s).writeLog = s.writeLog ++ [0] ∧
    (RTC.resetLostPower simWire ⟨RTCModel.unknown, a⟩ s).txns = s.txns ++ [(a, [0])] := by
  refine ⟨rfl, rfl, rfl, rfl, rfl, ?_, ?_, ?_, ?_⟩
  · show (simWire.endTransmission (simWire.beginTransmission s a)).1.writeLog = s.writeLog
    by_cases hresp : s.responds a <;> simp [simWire, hresp]
  · show (simWire.endTransmission (simWire.beginTransmission s a)).1.txns
      = s.txns ++ [(a, [])]
    by_cases hresp : s.responds a <;> simp [simWire, hresp]
  · show (simWire.endTransmission
        (simWire.write (simWire.beginTransmission s a) 0)).1.writeLog
      = s.writeLog ++ [0]
    by_cases hresp : s.responds a <;> simp [simWire, hresp]
  · show (simWire.endTransmission
        (simWire.write (simWire.beginTransmission s a) 0)).1.txns
      = s.txns ++ [(a, [0])]
    by_cases hresp : s.responds a <;> simp [simWire, hresp]

/-- C6: `begin()` first probes M41T81's fixed address and adopts M41T81
there if it responds (regardless of the other address); otherwise it probes
PCF8523's fixed address, and if that responds it writes the sentinel 0xFF
to scratch register 0x10 (transaction `(PCF8523_ADDR, [0x10, 0xff])`),
reads the register back, classifies the chip as PCF8523 exactly when the
read-back equals 0x07 and as M41T81 otherwise, and returns `true`; if
neither address responds it sets the model to `unknown` (leaving the stored
address untouched) and returns `false`. -/
theorem c6_begin_detection (responds : Nat → Bool) (echo : Nat → Nat → Nat) (r0 : RTCState) :
    (responds M41T81_ADDR = true →
        (RTC.begin echoWire r0 (EchoBus.fresh responds echo)).1
            = ⟨RTCModel.M41T81, M41T81_ADDR⟩ ∧
        (RTC.begin echoWire r0 (EchoBus.fresh responds echo)).2.2 = true) ∧
    (responds M41T81_ADDR = false → responds PCF8523_ADDR = true →
        (RTC.begin echoWire r0 (EchoBus.fresh responds echo)).2.2 = true ∧
        (RTC.begin echoWire r0 (EchoBus.fresh responds echo)).1._RTCaddr = PCF8523_ADDR ∧
        (echo PCF8523_ADDR 0x10 % 256 = 0x07 →
            (RTC.begin echoWire r0 (EchoBus.fresh responds echo)).1._model = RTCModel.PCF8523) ∧
        (echo PCF8523_ADDR 0x10 % 256 ≠ 0x07 →
            (RTC.begin echoWire r0 (EchoBus.fresh responds echo)).1._model = RTCModel.M41T81) ∧
        (RTC.begin echoWire r0 (EchoBus.fresh responds echo)).2.1.txns
          = [(M41T81_ADDR, []), (PCF8523_ADDR, []), (PCF8523_ADDR, [0x10, 0xff]),
             (PCF8523_ADDR, [0x10])]) ∧
    (responds M41T81_ADDR = false → responds PCF8523_ADDR = false →
        (RTC.begin echoWire r0 (EchoBus.fresh responds echo)).1._model = RTCModel.unknown ∧
        (RTC.begin echoWire r0 (EchoBus.fresh responds echo)).1._RTCaddr = r0._RTCaddr ∧
        (RTC.begin echoWire r0 (EchoBus.fresh responds echo)).2.2 = false) := by
  refine ⟨?_, ?_, ?_⟩
  · intro hA
    simp [RTC.begin, RTC.readBytes, echoWire, EchoBus.fresh, hA]
  · intro hA hB
    refine ⟨?_, ?_, ?_, ?_, ?_⟩
    · simp [RTC.begin, RTC.readBytes, echoWire, EchoBus.fresh, hA, hB, List.range_succ]
      split <;> rfl
    · simp [RTC.begin, RTC.readBytes, echoWire, EchoBus.fresh, hA, hB, List.range_succ]
      split <;> rfl
    · intro hecho
      simp [RTC.begin, RTC.readBytes, echoWire, EchoBus.fresh, hA, hB, hecho, List.range_succ]
    · intro hecho
      simp [RTC.begin, RTC.readBytes, echoWire, EchoBus.fresh, hA, hB, hecho, List.range_succ]
    · simp [RTC.begin, RTC.readBytes, echoWire, EchoBus.fresh, hA, hB, List.range_succ]
      split <;> rfl
  · intro hA hB
    simp [RTC.begin, RTC.readBytes, echoWire, EchoBus.fresh, hA, hB, List.range_succ]

/-- C6 witness: a bus answering only at PCF8523's address echoing 0x07
classifies as PCF8523 and returns true; a bus answering at M41T81's address
adopts M41T81 there; a bus answering nowhere yields `unknown` and `false`. -/
theorem c6_begin_detection_witness :
    (RTC.begin echoWire ⟨RTCModel.unknown, 0⟩
        (EchoBus.fresh (fun a => a == PCF8523_ADDR) (fun _ _ => 0x07))).1._model
          = RTCModel.PCF8523 ∧
    (RTC.begin echoWire ⟨RTCModel.unknown, 0⟩
        (EchoBus.fresh (fun a => a == PCF8523_ADDR) (fun _ _ => 0x07))).2.2 = true ∧
    (RTC.begin echoWire ⟨RTCModel.unknown, 0⟩
        (EchoBus.fresh (fun a => a == M41T81_ADDR) (fun _ _ => 0))).1
          = ⟨RTCModel.M41T81, M41T81_ADDR⟩ ∧
    (RTC.begin echoWire ⟨RTCModel.unknown, 5⟩
        (EchoBus.fresh (fun _ => false) (fun _ _ => 0))).1._model = RTCModel.unknown ∧
    (RTC.begin echoWire ⟨RTCModel.unknown, 5⟩
        (EchoBus.fresh (fun _ => false) (fun _ _ => 0))).2.2 = false := by
  refine ⟨?_, ?_, ?_, ?_, ?_⟩
  · exact ((c6_begin_detection (fun a => a == PCF8523_ADDR) (fun _ _ => 0x07)
      ⟨RTCModel.unknown, 0⟩).2.1 (by decide) (by decide)).2.2.1 (by decide)
  · exact ((c6_begin_detection (fun a => a == PCF8523_ADDR) (fun _ _ => 0x07)
      ⟨RTCModel.unknown, 0⟩).2.1 (by decide) (by decide)).1
  · exact ((c6_begin_detection (fun a => a == M41T81_ADDR) (fun _ _ => 0)
      ⟨RTCModel.unknown, 0⟩).1 (by decide)).1
  · exact ((c6_begin_detection (fun _ => false) (fun _ _ => 0)
      ⟨RTCModel.unknown, 5⟩).2.2 (by decide) (by decide)).1
  · exact ((c6_begin_detection (fun _ => false) (fun _ _ => 0)
      ⟨RTCModel.unknown, 5⟩).2.2 (by decide) (by decide)).2.2

set_option maxHeartbeats 20000000 in
lemma adjust_m41t81_fresh (regs0 : Nat → Nat → Nat) (a y m d hh mm ss : Nat) :
    RTC.adjust simWire ⟨RTCModel.M41T81, a⟩ (SimBus.fresh regs0) ⟨y, m, d, hh, mm, ss⟩
      = { responds := fun _ => true,
          regs := fun dev => if dev = a then
              storeList (regs0 dev) (1 % 256)
                [bin2bcd ss % 256, bin2bcd mm % 256, bin2bcd hh % 256, 0 % 256,
                 bin2bcd d % 256, bin2bcd m % 256, bin2bcd (2000 + y - 2000) % 256,
                 128 % 256, 128 % 256, 0 % 256, 0 % 256, 0 % 256, 0 % 256, 0 % 256, 0 % 256]
            else regs0 dev,
          ptr := fun dev => if dev = a then 1 % 256 + 15 else 0,
          curAddr := a,
          curData := [1 % 256, bin2bcd ss % 256, bin2bcd mm % 256, bin2bcd hh % 256, 0 % 256,
                      bin2bcd d % 256, bin2bcd m % 256, bin2bcd (2000 + y - 2000) % 256,
                      128 % 256, 128 % 256, 0 % 256, 0 % 256, 0 % 256, 0 % 256, 0 % 256, 0 % 256],
          rx := [],
          txns := [(a, [1 % 256, bin2bcd ss % 256, bin2bcd mm % 256, bin2bcd hh % 256, 0 % 256,
                        bin2bcd d % 256, bin2bcd m % 256, bin2bcd (2000 + y - 2000) % 256,
                        128 % 256, 128 % 256, 0 % 256, 0 % 256, 0 % 256, 0 % 256, 0 % 256, 0 % 256])],
          writeLog := [1 % 256, bin2bcd ss % 256, bin2bcd mm % 256, bin2bcd hh % 256, 0 % 256,
                       bin2bcd d % 256, bin2bcd m % 256, bin2bcd (2000 + y - 2000) % 256,
                       128 % 256, 128 % 256, 0 % 256, 0 % 256, 0 % 256, 0 % 256, 0 % 256, 0 % 256] } := rfl

set_option maxHeartbeats 20000000 in
lemma adjust_pcf8523_fresh (regs0 : Nat → Nat → Nat) (a y m d hh mm ss : Nat) :
    RTC.adjust simWire ⟨RTCModel.PCF8523, a⟩ (SimBus.fresh regs0) ⟨y, m, d, hh, mm, ss⟩
      = { responds := fun _ => true,
          regs := fun dev => if dev = a then
              storeList (regs0 dev) (PCF8523_CONTROL_3 % 256)
                [0 % 256, bin2bcd ss % 256, bin2bcd mm % 256, bin2bcd hh % 256,
                 bin2bcd d % 256, bin2bcd 0 % 256, bin2bcd m % 256,
                 bin2bcd (2000 + y - 2000) % 256]
            else regs0 dev,
          ptr := fun dev => if dev = a then PCF8523_CONTROL_3 % 256 + 8 else 0,
          curAddr := a,
          curData := [PCF8523_CONTROL_3 % 256, 0 % 256, bin2bcd ss % 256, bin2bcd mm % 256,
                      bin2bcd hh % 256, bin2bcd d % 256, bin2bcd 0 % 256, bin2bcd m % 256,
                      bin2bcd (2000 + y - 2000) % 256],
          rx := [],
          txns := [(a, [PCF8523_CONTROL_3 % 256, 0 % 256, bin2bcd ss % 256, bin2bcd mm % 256,
                        bin2bcd hh % 256, bin2bcd d % 256, bin2bcd 0 % 256, bin2bcd m % 256,
                        bin2bcd (2000 + y - 2000) % 256])],
          writeLog := [PCF8523_CONTROL_3 % 256, 0 % 256, bin2bcd ss % 256, bin2bcd mm % 256,
                       bin2bcd hh % 256, bin2bcd d % 256, bin2bcd 0 % 256, bin2bcd m % 256,
                       bin2bcd (2000 + y - 2000) % 256] } := rfl

set_option maxHeartbeats 2000000 in
lemma now_m41t81_fields (s : SimBus) (a : Nat) (hresp : s.responds a = true) :
    (RTC.now simWire ⟨RTCModel.M41T81, a⟩ s).2
      = DateTime.mkFields (bcd2bin (s.regs a 7 % 256) + 2000)
          (bcd2bin (s.regs a 6 % 256 % 32)) (bcd2bin (s.regs a 5 % 256 % 64))
          (bcd2bin (s.regs a 3 % 256 % 64)) (bcd2bin (s.regs a 2 % 256 % 128))
          (bcd2bin (s.regs a 1 % 256 % 128)) := by
  simp [RTC.now, RTC.readBytes, simWire, hresp, List.range_succ, storeList]

set_option maxHeartbeats 2000000 in
lemma now_pcf8523_fields (s : SimBus) (a : Nat) (hresp : s.responds a = true) :
    (RTC.now simWire ⟨RTCModel.PCF8523, a⟩ s).2
      = DateTime.mkFields (bcd2bin (s.regs a 9 % 256) + 2000)
          (bcd2bin (s.regs a 8 % 256 % 32)) (bcd2bin (s.regs a 6 % 256 % 64))
          (bcd2bin (s.regs a 5 % 256 % 64)) (bcd2bin (s.regs a 4 % 256 % 128))
          (bcd2bin (s.regs a 3 % 256 % 128)) := by
  simp [RTC.now, RTC.readBytes, simWire, hresp, List.range_succ, storeList]

lemma bcdM128 : ∀ v < 60, bcd2bin (bin2bcd v % 128) = v := by decide

lemma bcdM64 : ∀ v < 32, bcd2bin (bin2bcd v % 64) = v := by decide

lemma bcdM32 : ∀ v < 13, bcd2bin (bin2bcd v % 32) = v := by decide

lemma bcdM0 : ∀ v < 100, bcd2bin (bin2bcd v % 256) = v := by decide

/-- C7: on a register-backed simulated bus with a detected model (M41T81 or
PCF8523), `adjust(dt)` followed by `now()` returns a DateTime whose year,
month, day, hour, minute and second all equal those of the valid `dt`
(the weekday register is written as zero and ignored on read). -/
theorem c7_adjust_now_roundtrip (regs0 : Nat → Nat → Nat) (a : Nat) (mdl : RTCModel)
    (hm : mdl = RTCModel.M41T81 ∨ mdl = RTCModel.PCF8523)
    (y m d hh mm ss : Nat) (h : ValidTuple ⟨y, m, d, hh, mm, ss⟩) :
    (RTC.now simWire ⟨mdl, a⟩
        (RTC.adjust simWire ⟨mdl, a⟩ (SimBus.fresh regs0) ⟨y, m, d, hh, mm, ss⟩)).2
      = ⟨y, m, d, hh, mm, ss⟩ := by
  rw [validTuple_mk] at h
  have hd31 : d ≤ 31 := by
    have h31 := monthLen_le_31 (leapOf y) (leapOf_lt_two y) (m - 1) (by omega)
    have hm1 : m - 1 + 1 = m := by omega
    rw [hm1] at h31
    omega
  rcases hm with rfl | rfl
  · rw [adjust_m41t81_fresh, now_m41t81_fields _ a rfl]
    simp only [storeList]
    norm_num
    rw [bcdM0 y (by omega), bcdM32 m (by omega), bcdM64 d (by omega),
        bcdM64 hh (by omega), bcdM128 mm (by omega), bcdM128 ss (by omega)]
    simp only [DateTime.mkFields]
    rw [if_pos (Nat.le_add_left 2000 _)]
    simp only [DateTime.mk.injEq]
    refine ⟨by omega, by omega, by omega, by omega, by omega, by omega⟩
  · rw [adjust_pcf8523_fresh, now_pcf8523_fields _ a rfl]
    simp only [storeList, PCF8523_CONTROL_3]
    norm_num
    rw [bcdM0 y (by omega), bcdM32 m (by omega), bcdM64 d (by omega),
        bcdM64 hh (by omega), bcdM128 mm (by omega), bcdM128 ss (by omega)]
    simp only [DateTime.mkFields]
    rw [if_pos (Nat.le_add_left 2000 _)]
    simp only [DateTime.mk.injEq]
    refine ⟨by omega, by omega, by omega, by omega, by omega, by omega⟩

/-- C7 witness: 2021-03-04T05:06:07 round-trips through adjust/now on a
fresh register-backed bus for both detected models. -/
theorem c7_adjust_now_roundtrip_witness :
    ValidTuple ⟨21, 3, 4, 5, 6, 7⟩ ∧
    (RTC.now simWire ⟨RTCModel.M41T81, 0x68⟩
        (RTC.adjust simWire ⟨RTCModel.M41T81, 0x68⟩
          (SimBus.fresh fun _ _ => 0) ⟨21, 3, 4, 5, 6, 7⟩)).2
      = ⟨21, 3, 4, 5, 6, 7⟩ ∧
    (RTC.now simWire ⟨RTCModel.PCF8523, 0x68⟩
        (RTC.adjust simWire ⟨RTCModel.PCF8523, 0x68⟩
          (SimBus.fresh fun _ _ => 0) ⟨21, 3, 4, 5, 6, 7⟩)).2
      = ⟨21, 3, 4, 5, 6, 7⟩ :=
  ⟨by decide,
   c7_adjust_now_roundtrip _ 0x68 _ (Or.inl rfl) 21 3 4 5 6 7 (by decide),
   c7_adjust_now_roundtrip _ 0x68 _ (Or.inr rfl) 21 3 4 5 6 7 (by decide)⟩
